import Mathlib

/-!
Verification of the Flickr downloader web client
(`src/static/js/app.js`) against its specification.

The file shallowly embeds the client-side JavaScript: the DOM elements the
script mutates and its module-level globals (`userNsid`, `userAlbums`,
`currentJobId`, `eventSource`) are gathered into one explicit state record,
and each function of the script becomes a Lean function from state (plus the
inputs the browser would supply: form field values, fetch responses, stream
events) to state together with the list of HTTP requests it issues.

JavaScript conventions are modelled explicitly:
  - `parseInt(x)` on a form field is an `Option Int` (`none` = `NaN`);
  - `v || d` on numbers maps `NaN` and `0` to `d` (`jsOrInt`), on strings it
    maps `""` to `d` (`jsOr`);
  - truthiness of a nullable string (`if (userNsid)`) is `jsTruthyOptStr`;
  - `Math.round((current / total) * 100)` is modelled with exact rational
    rounding (round half up), `jsRoundPct`; JavaScript computes it in binary
    floating point, which agrees with the exact value except possibly on
    ties that are not exactly representable;
  - `n.toLocaleString()` is modelled as decimal rendering with comma
    grouping (`jsToLocaleString`);
  - `encodeURIComponent`, a browser builtin external to the repository, is
    modelled at the boundary as its argument (the cell keeps the raw URL).
-/

namespace FlickrClient

/-- JavaScript `parseInt(field) || d`: `NaN` (here `none`) and `0` are falsy
and replaced by the default; every other integer, including negatives, is
kept. -/
def jsOrInt : Option Int → Int → Int
  | none, d => d
  | some n, d => if n = 0 then d else n

/-- JavaScript `s || d` for strings: the empty string is falsy. -/
def jsOr (s d : String) : String := if s = "" then d else s

/-- Truthiness of a nullable string: `null` and `""` are falsy. -/
def jsTruthyOptStr : Option String → Bool
  | none => false
  | some s => s != ""

/-- Exact-arithmetic model of `Math.round((current / total) * 100)` for
nonnegative operands: round half up of `100 * current / total`. -/
def jsRoundPct (current total : Nat) : Nat :=
  (200 * current + total) / (2 * total)

/-- Comma grouping of a digit list given least-significant digit first. -/
def groupRev : List Char → List Char
  | c1 :: c2 :: c3 :: c4 :: rest => c1 :: c2 :: c3 :: ',' :: groupRev (c4 :: rest)
  | l => l

/-- Model of JavaScript `n.toLocaleString()` for a nonnegative integer:
decimal digits grouped in threes by commas. -/
def jsToLocaleString (n : Nat) : String :=
  String.mk (groupRev (toString n).data.reverse).reverse

/-- One album entry stored in the `userAlbums` global by `lookupUser`. -/
structure Album where
  id : String
  title : String
  photos : Nat
deriving DecidableEq, Repr

/-- The client state: the DOM elements `app.js` mutates during a download,
plus its module-level globals.  `eventSourceOpen` is `true` exactly when the
`eventSource` global is a live (not yet closed, non-null) `EventSource`. -/
structure ClientState where
  progressStatus : String
  progressBarWidth : String
  logOutput : String
  downloadLinkWrap : String
  downloadBtnDisabled : Bool
  cancelBtnDisabled : Bool
  userNsid : Option String
  userAlbums : List Album
  currentJobId : Option String
  eventSourceOpen : Bool
deriving DecidableEq, Repr

/-- One server-sent event as parsed from `event.data`.  Fields that a given
event kind does not carry are the JSON-absent defaults (`0`, `""`,
`false`). -/
structure Event where
  type : String
  current : Nat
  total : Nat
  message : String
  file_ready : Bool
  job_id : String
deriving DecidableEq, Repr

/-- The terminal event kinds of the progress stream. -/
def isTerminalEvent (ev : Event) : Prop :=
  ev.type = "complete" ∨ ev.type = "error" ∨ ev.type = "cancelled"

instance (ev : Event) : Decidable (isTerminalEvent ev) := by
  unfold isTerminalEvent; infer_instance

/-- Model of `setRunning(running)` from `app.js`: the download button is disabled
exactly while running and the cancel button exactly while not running. -/
def setRunning (s : ClientState) (running : Bool) : ClientState :=
  { s with downloadBtnDisabled := running, cancelBtnDisabled := !running }

/-- Model of `appendLog(msg)` from `app.js`: appends the message and a newline to the
log output element. -/
def appendLog (s : ClientState) (msg : String) : ClientState :=
  { s with logOutput := s.logOutput ++ msg ++ "\n" }

/-- The inner HTML written for the download link of a completed job. -/
def downloadLinkHtml (jobId : String) : String :=
  "<a class=\"download-link\" href=\"/api/download/file/" ++ jobId
    ++ "\">Download Zip</a>"

/-- Model of the `eventSource.onmessage` handler installed by
`startDownload`: the
switch on `ev.type` over the six event kinds; any other kind falls through
the switch and leaves the state unchanged. -/
def onmessage (s : ClientState) (ev : Event) : ClientState :=
  if ev.type = "progress" then
    { s with
      progressBarWidth := toString (jsRoundPct ev.current ev.total) ++ "%",
      progressStatus := toString ev.current ++ "/" ++ toString ev.total
        ++ " photos" }
  else if ev.type = "log" then
    appendLog s ev.message
  else if ev.type = "zipping" then
    { s with progressStatus := "Creating zip file..." }
  else if ev.type = "complete" then
    let s1 := appendLog s (jsOr ev.message "Done.")
    let s2 := { s1 with progressStatus := "Done" }
    let s3 := if ev.file_ready then
        { s2 with downloadLinkWrap := downloadLinkHtml ev.job_id }
      else s2
    { setRunning s3 false with eventSourceOpen := false }
  else if ev.type = "error" then
    let s1 := { appendLog s ("Error: " ++ ev.message) with
      progressStatus := "Failed" }
    { setRunning s1 false with eventSourceOpen := false }
  else if ev.type = "cancelled" then
    let s1 := { appendLog s "Operation cancelled." with
      progressStatus := "Cancelled" }
    { setRunning s1 false with eventSourceOpen := false }
  else s

/-- Model of the `eventSource.onerror` handler installed by
`startDownload`. -/
def onerror (s : ClientState) : ClientState :=
  { setRunning (appendLog s "Connection lost.") false with
    eventSourceOpen := false }

/-- Delivery of a sequence of stream events to the client: the browser
invokes `onmessage` per arriving event while the `EventSource` is live;
once the handler has closed and nulled it, no further event is delivered. -/
def processEvents (s : ClientState) : List Event → ClientState
  | [] => s
  | ev :: rest =>
    if s.eventSourceOpen then processEvents (onmessage s ev) rest else s

/-- The form field values `gatherParams` and `startPreview` read from the
DOM.  Count fields hold the result of `parseInt` (`none` = `NaN`), as does
the album `<select>` value. -/
structure FormInputs where
  activeTab : Option String
  photoSize : String
  embedMetadata : Bool
  filenameTmpl : String
  intDate : String
  intCount : Option Int
  searchText : String
  searchTags : String
  tagMode : String
  sort : String
  license : String
  searchCount : Option Int
  userMode : String
  userCount : Option Int
  albumSelect : Option Int
deriving DecidableEq, Repr

/-- The request object built by `gatherParams`; fields a branch does not set
are absent (`none`) in the JSON body. -/
structure Params where
  size_key : String
  embed_metadata : Bool
  filename_template : String
  tab_type : Option String
  date : Option String
  count : Option Int
  user_id : Option String
  text : Option String
  tags : Option String
  tag_mode : Option String
  sort : Option String
  license_ids : Option String
  user_nsid : Option String
  album_id : Option String
  album_title : Option String
deriving DecidableEq, Repr

/-- Model of `getActiveTab()` from `app.js`: the active tab button, or
`interestingness` when none is active. -/
def getActiveTab (activeTab : Option String) : String :=
  match activeTab with
  | some t => t
  | none => "interestingness"

/-- Model of `gatherParams()` from `app.js`: builds the download request from the
form fields and the `userNsid` / `userAlbums` globals, or returns `none`
(after alerting) when the user-album tab is active and no user is resolved
or no valid album is selected. -/
def gatherParams (i : FormInputs) (userNsid : Option String)
    (userAlbums : List Album) : Option Params :=
  let tab := getActiveTab i.activeTab
  let base : Params := {
    size_key := i.photoSize
    embed_metadata := i.embedMetadata
    filename_template := jsOr i.filenameTmpl "{title}_{id}"
    tab_type := none, date := none, count := none, user_id := none
    text := none, tags := none, tag_mode := none, sort := none
    license_ids := none, user_nsid := none, album_id := none
    album_title := none }
  if tab = "interestingness" then
    some { base with
      tab_type := some "interestingness"
      date := some i.intDate.trim
      count := some (jsOrInt i.intCount 500)
      user_id := if jsTruthyOptStr userNsid then userNsid else none }
  else if tab = "search" then
    some { base with
      tab_type := some "search"
      text := some i.searchText.trim
      tags := some i.searchTags.trim
      tag_mode := some i.tagMode
      sort := some i.sort
      license_ids := some i.license
      count := some (jsOrInt i.searchCount 100)
      user_id := if jsTruthyOptStr userNsid then userNsid else none }
  else if tab = "user-album" then
    if jsTruthyOptStr userNsid = false then
      none
    else if i.userMode = "photostream" then
      some { base with
        tab_type := some "user_photostream"
        user_nsid := userNsid
        count := some (jsOrInt i.userCount 500) }
    else
      match i.albumSelect with
      | none => none
      | some idx =>
        if idx < 0 ∨ (userAlbums.length : Int) ≤ idx then none
        else
          match userAlbums.get? idx.toNat with
          | none => none
          | some a =>
            some { base with
              tab_type := some "album"
              user_nsid := userNsid
              album_id := some a.id
              album_title := some a.title }
  else
    some base

/-- Model of `onUserModeChange()` from `app.js`: the album `<select>` is disabled
unless album mode is selected, and the count input is disabled exactly while
album mode is selected. -/
structure UserModeUI where
  albumSelectDisabled : Bool
  userCountDisabled : Bool
deriving DecidableEq, Repr

def onUserModeChange (mode : String) : UserModeUI :=
  { albumSelectDisabled := mode != "album"
    userCountDisabled := mode == "album" }

/-- An HTTP request issued by the client. -/
inductive Request where
  | startPost (p : Params)
  | cancelPost (jobId : String)
deriving DecidableEq, Repr

/-- Outcome of the `fetch` to `/api/download/start`: a JSON body with an
`error` field, a JSON body with a `job_id`, or a thrown network error. -/
inductive StartResponse where
  | ok (jobId : String)
  | err (msg : String)
  | netfail (msg : String)
deriving DecidableEq, Repr

/-- The synchronous effects of `startDownload()` up to the opening of the
`EventSource`: when `gatherParams` returns `null` the function returns at
once with no request; otherwise it resets the progress UI, flips the
buttons to running, posts the request, and either logs the start error and
flips the buttons back, or records the job id and opens the stream. -/
def startDownload (s : ClientState) (i : FormInputs)
    (resp : StartResponse) : ClientState × List Request :=
  match gatherParams i s.userNsid s.userAlbums with
  | none => (s, [])
  | some p =>
    let s1 := setRunning { s with
      logOutput := ""
      progressBarWidth := "0%"
      progressStatus := "Starting..."
      downloadLinkWrap := "" } true
    match resp with
    | .err m => (setRunning (appendLog s1 ("Error: " ++ m)) false,
        [Request.startPost p])
    | .netfail m => (setRunning (appendLog s1 ("Error: " ++ m)) false,
        [Request.startPost p])
    | .ok j => ({ s1 with currentJobId := some j, eventSourceOpen := true },
        [Request.startPost p])

/-- Model of `cancelDownload()` from `app.js`: a silent no-op without a current job
id; otherwise it sets the status text and posts to the cancel endpoint,
logging a message only if the post throws (`fetchErr`). -/
def cancelDownload (s : ClientState) (fetchErr : Option String) :
    ClientState × List Request :=
  match s.currentJobId with
  | none => (s, [])
  | some j =>
    let s1 := { s with progressStatus := "Cancelling..." }
    match fetchErr with
    | none => (s1, [Request.cancelPost j])
    | some m => (appendLog s1 ("Cancel error: " ++ m),
        [Request.cancelPost j])

/-- One photo of a search-preview response. -/
structure PreviewPhoto where
  thumb_url : String
  title : String
  owner : String
  date_taken : String
deriving DecidableEq, Repr

/-- The JSON body of a `/api/search` response. -/
structure SearchData where
  error : Option String
  preview : List PreviewPhoto
  total : Nat
deriving DecidableEq, Repr

/-- The UI touched by `startPreview`: its status line, the thumbnail grid,
the alerts raised, and the preview button. -/
structure PreviewState where
  statusText : String
  grid : List (String × String)
  alerts : List String
  btnDisabled : Bool
deriving DecidableEq, Repr

/-- The title shown under a thumbnail: truncated to 12 characters plus an
ellipsis when longer than 15. -/
def truncTitle (t : String) : String :=
  if t.length > 15 then t.take 12 ++ "..." else t

/-- The grid cells rendered from a preview list: photos with a falsy
`thumb_url` are skipped; each cell keeps its image source and shown title
(the `encodeURIComponent` browser builtin is modelled as its argument). -/
def renderCells (l : List PreviewPhoto) : List (String × String) :=
  l.filterMap fun p =>
    if p.thumb_url = "" then none
    else some ("/api/preview-thumb?url=" ++ p.thumb_url, truncTitle p.title)

/-- Model of `startPreview()` from `app.js`: alerts and returns when both search
fields are blank; otherwise clears the grid and, from the `/api/search`
response, reports an error, reports `No photos found.` on an empty preview
list, or fills the grid and reports the totals.  The two string arguments
are the trimmed field reads, exactly as the source binds them
(`document.getElementById(...).value.trim()`). -/
def startPreview (st : PreviewState) (searchText searchTags : String)
    (resp : Except String SearchData) : PreviewState :=
  if searchText = "" ∧ searchTags = "" then
    { st with alerts := st.alerts ++ ["Enter keywords and/or tags to search."] }
  else
    match resp with
    | .error m =>
      { st with statusText := "Error: " ++ m, grid := [], btnDisabled := false }
    | .ok data =>
      if jsTruthyOptStr data.error then
        { st with
          statusText := "Error: " ++ data.error.getD "",
          grid := [], btnDisabled := false }
      else if data.preview = [] then
        { st with
          statusText := "No photos found.",
          grid := [], btnDisabled := false }
      else
        { st with
          statusText := jsToLocaleString data.total
            ++ " total photos found  |  Previewing "
            ++ toString data.preview.length,
          grid := renderCells data.preview,
          btnDisabled := false }

end FlickrClient

namespace FlickrClient

/-! ### Sample inputs used by the witnesses -/

def sampleState : ClientState :=
  { progressStatus := "", progressBarWidth := "", logOutput := "",
    downloadLinkWrap := "", downloadBtnDisabled := true,
    cancelBtnDisabled := false, userNsid := none, userAlbums := [],
    currentJobId := none, eventSourceOpen := true }

def evProgress : Event :=
  { type := "progress", current := 3, total := 4, message := "",
    file_ready := false, job_id := "" }

def evComplete : Event :=
  { type := "complete", current := 0, total := 0, message := "",
    file_ready := true, job_id := "J7" }

def evLog : Event :=
  { type := "log", current := 0, total := 0, message := "fetched 1",
    file_ready := false, job_id := "" }

def evUnknown : Event :=
  { type := "heartbeat", current := 0, total := 0, message := "",
    file_ready := false, job_id := "" }

def sampleAlbum : Album := { id := "A9", title := "Trip", photos := 3 }

def sampleInputs : FormInputs :=
  { activeTab := some "user-album", photoSize := "b", embedMetadata := true,
    filenameTmpl := "", intDate := "2024-01-01", intCount := none,
    searchText := "sunset", searchTags := "", tagMode := "any",
    sort := "relevance", license := "", searchCount := some 0,
    userMode := "album", userCount := none, albumSelect := some 0 }

/-! ### Helper lemmas -/

/-- Every terminal branch of the onmessage switch closes the stream and
re-enables the download button. -/
theorem onmessage_terminal_effects (s : ClientState) (ev : Event)
    (h : isTerminalEvent ev) :
    (onmessage s ev).eventSourceOpen = false ∧
    (onmessage s ev).downloadBtnDisabled = false := by
  rcases h with h | h | h <;>
    cases hf : ev.file_ready <;>
      simp [onmessage, h, hf, setRunning, appendLog]

/-- Once the stream is closed, event delivery is over: no event in the
queue is processed. -/
theorem processEvents_of_closed (s : ClientState) (l : List Event)
    (h : s.eventSourceOpen = false) : processEvents s l = s := by
  cases l with
  | nil => rfl
  | cons e rest => simp [processEvents, h]

/-- The Nat-division formula used in the embedding agrees with exact
round-half-up of `100 * current / total`. -/
theorem jsRoundPct_eq_round (c t : Nat) (ht : 0 < t) :
    (round ((100 * c : ℚ) / (t : ℚ))).toNat = jsRoundPct c t := by
  have htQ : (t : ℚ) ≠ 0 := Nat.cast_ne_zero.mpr ht.ne'
  have h1 : (100 * c : ℚ) / t + 1 / 2
      = (((200 * c + t : ℕ) : ℤ) : ℚ) / ((2 * t : ℕ) : ℚ) := by
    push_cast
    field_simp
    ring
  rw [round_eq, h1, Rat.floor_intCast_div_natCast]
  rw [jsRoundPct, ← Int.natCast_div]
  exact Int.toNat_natCast _

/-! ### Claims -/

/-- C1: once the onmessage handler processes a terminal event
(`complete`, `error` or `cancelled`) it closes the EventSource and nulls
it, so no event arriving after the terminal one is ever processed: the
delivery of the whole remaining queue equals the single handling of the
terminal event, and the client acts on at most one terminal event per
job. -/
theorem stream_closed_after_terminal (s : ClientState) (ev : Event)
    (rest : List Event) (hopen : s.eventSourceOpen = true)
    (hterm : isTerminalEvent ev) :
    (onmessage s ev).eventSourceOpen = false ∧
    processEvents s (ev :: rest) = onmessage s ev := by
  have hclosed := (onmessage_terminal_effects s ev hterm).1
  refine ⟨hclosed, ?_⟩
  rw [processEvents, if_pos hopen]
  exact processEvents_of_closed _ _ hclosed

theorem stream_closed_after_terminal_witness :
    (onmessage sampleState evComplete).eventSourceOpen = false ∧
    processEvents sampleState (evComplete :: [evLog]) =
      onmessage sampleState evComplete :=
  stream_closed_after_terminal sampleState evComplete [evLog] rfl
    (Or.inl rfl)

/-- C2: a progress event sets the status text to "current/total photos"
and the progress-bar width to round(100 * current / total) percent (exact
round half up), and the switch handles exactly the six kinds progress,
log, zipping, complete, error, cancelled: an event of any other kind
leaves the client state unchanged. -/
theorem progress_event_rendering (s : ClientState) (ev ev2 : Event)
    (hty : ev.type = "progress") (hpos : 0 < ev.total)
    (hother : ev2.type ∉ (["progress", "log", "zipping", "complete",
      "error", "cancelled"] : List String)) :
    (onmessage s ev).progressStatus =
      toString ev.current ++ "/" ++ toString ev.total ++ " photos" ∧
    (onmessage s ev).progressBarWidth =
      toString (round ((100 * ev.current : ℚ) / (ev.total : ℚ))).toNat
        ++ "%" ∧
    onmessage s ev2 = s := by
  simp only [List.mem_cons, List.not_mem_nil, or_false, not_or] at hother
  obtain ⟨h1, h2, h3, h4, h5, h6⟩ := hother
  refine ⟨?_, ?_, ?_⟩
  · simp [onmessage, hty]
  · simp [onmessage, hty, jsRoundPct_eq_round _ _ hpos]
  · simp [onmessage, h1, h2, h3, h4, h5, h6]

theorem progress_event_rendering_witness :
    (onmessage sampleState evProgress).progressStatus =
      toString evProgress.current ++ "/" ++ toString evProgress.total
        ++ " photos" ∧
    (onmessage sampleState evProgress).progressBarWidth =
      toString (round ((100 * evProgress.current : ℚ) /
        (evProgress.total : ℚ))).toNat ++ "%" ∧
    onmessage sampleState evUnknown = sampleState :=
  progress_event_rendering sampleState evProgress evUnknown rfl
    (by decide) (by decide)

/-- C3: cancelDownload with a current job id sets the progress status to
Cancelling... and issues exactly one POST to the cancel endpoint, and
nothing else: the resulting state is the old state with only the status
text replaced, so the stream, the buttons and the job state are all
untouched and the cancellation outcome is observed only via the event
stream. -/
theorem cancel_request_frame (s : ClientState) (j : String)
    (hj : s.currentJobId = some j) :
    cancelDownload s none =
      ({ s with progressStatus := "Cancelling..." },
        [Request.cancelPost j]) := by
  simp [cancelDownload, hj]

def cancelState : ClientState :=
  { sampleState with currentJobId := some "J1" }

theorem cancel_request_frame_witness :
    cancelDownload cancelState none =
      ({ cancelState with progressStatus := "Cancelling..." },
        [Request.cancelPost "J1"]) :=
  cancel_request_frame cancelState "J1" rfl

/-- C4: on a complete event a download link whose href contains the job
id is rendered if and only if file_ready is true; with file_ready false
the link area stays empty while the status still shows Done rather than
an error. -/
theorem complete_event_link (s : ClientState) (ev : Event)
    (hty : ev.type = "complete") (hwrap : s.downloadLinkWrap = "")
    (hjid : ev.job_id ≠ "") :
    ((onmessage s ev).downloadLinkWrap =
      if ev.file_ready then downloadLinkHtml ev.job_id else "") ∧
    ((∃ pre post, (onmessage s ev).downloadLinkWrap
        = pre ++ ev.job_id ++ post) ↔ ev.file_ready = true) ∧
    (onmessage s ev).progressStatus = "Done" := by
  cases hf : ev.file_ready with
  | true =>
    refine ⟨?_, ?_, ?_⟩
    · simp [onmessage, hty, hf, setRunning, appendLog]
    · simp only [iff_true]
      refine ⟨"<a class=\"download-link\" href=\"/api/download/file/",
        "\">Download Zip</a>", ?_⟩
      simp [onmessage, hty, hf, setRunning, appendLog, downloadLinkHtml]
    · simp [onmessage, hty, hf, setRunning, appendLog]
  | false =>
    have hw : (onmessage s ev).downloadLinkWrap = "" := by
      simp [onmessage, hty, hf, setRunning, appendLog, hwrap]
    refine ⟨?_, ?_, ?_⟩
    · simp [hw, hf]
    · simp only [hw, Bool.false_eq_true, iff_false]
      rintro ⟨pre, post, h⟩
      have hlen := congrArg String.length h
      simp only [String.length_append] at hlen
      have hz : ev.job_id.length = 0 := by
        have : ("" : String).length = 0 := rfl
        omega
      refine hjid ?_
      rcases hq : ev.job_id with ⟨_ | ⟨c, cs⟩⟩
      · rfl
      · rw [hq] at hz
        simp [String.length] at hz
    · simp [onmessage, hty, hf, setRunning, appendLog]

theorem complete_event_link_witness :
    ((onmessage sampleState evComplete).downloadLinkWrap =
      if evComplete.file_ready then downloadLinkHtml evComplete.job_id
      else "") ∧
    ((∃ pre post, (onmessage sampleState evComplete).downloadLinkWrap
        = pre ++ evComplete.job_id ++ post) ↔
      evComplete.file_ready = true) ∧
    (onmessage sampleState evComplete).progressStatus = "Done" :=
  complete_event_link sampleState evComplete rfl rfl (by decide)

/-- C5: on the user-album tab, when no user is resolved, or album mode is
selected and the album selection index is NaN, negative, or not below the
number of looked-up albums, gatherParams returns none and startDownload
returns at once without issuing any request or touching the state. -/
theorem user_album_invalid_rejected (s : ClientState) (i : FormInputs)
    (resp : StartResponse)
    (htab : i.activeTab = some "user-album")
    (hbad : s.userNsid = none ∨
      (i.userMode = "album" ∧
        (i.albumSelect = none ∨
          ∃ idx, i.albumSelect = some idx ∧
            (idx < 0 ∨ (s.userAlbums.length : Int) ≤ idx)))) :
    gatherParams i s.userNsid s.userAlbums = none ∧
    startDownload s i resp = (s, []) := by
  have hg : gatherParams i s.userNsid s.userAlbums = none := by
    rcases hbad with hn | ⟨hm, hsel⟩
    · simp [gatherParams, getActiveTab, htab, hn, jsTruthyOptStr]
    · by_cases ht : jsTruthyOptStr s.userNsid = true
      · rcases hsel with hnone | ⟨idx, hidx, hrange⟩
        · simp [gatherParams, getActiveTab, htab, ht, hm, hnone]
        · simp only [gatherParams, getActiveTab, htab, ht, hm, hidx]
          simp only [Bool.true_eq_false, if_false, reduceIte]
          rw [if_pos hrange]
          simp
      · have ht2 : jsTruthyOptStr s.userNsid = false :=
          Bool.eq_false_iff.mpr ht
        simp [gatherParams, getActiveTab, htab, ht2]
  exact ⟨hg, by simp [startDownload, hg]⟩

theorem user_album_invalid_rejected_witness :
    gatherParams sampleInputs sampleState.userNsid sampleState.userAlbums
      = none ∧
    startDownload sampleState sampleInputs (StartResponse.ok "J") =
      (sampleState, []) :=
  user_album_invalid_rejected sampleState sampleInputs
    (StartResponse.ok "J") rfl (Or.inl rfl)

/-- C6: in album mode on the user-album tab the built request carries
tab_type album, the selected album id and title and the resolved user
identifier but no count field, and the count input is disabled while
album mode is selected; in photostream mode the built request always
carries a count. -/
theorem album_mode_request_shape (i i2 : FormInputs) (u : Option String)
    (albums : List Album) (idx : Int) (a : Album)
    (htab : i.activeTab = some "user-album")
    (hu : jsTruthyOptStr u = true)
    (hmode : i.userMode = "album")
    (hsel : i.albumSelect = some idx)
    (hrange : ¬(idx < 0 ∨ (albums.length : Int) ≤ idx))
    (hget : albums.get? idx.toNat = some a)
    (htab2 : i2.activeTab = some "user-album")
    (hmode2 : i2.userMode = "photostream") :
    (gatherParams i u albums).map Params.tab_type = some (some "album") ∧
    (gatherParams i u albums).map Params.album_id = some (some a.id) ∧
    (gatherParams i u albums).map Params.album_title
      = some (some a.title) ∧
    (gatherParams i u albums).map Params.user_nsid = some u ∧
    (gatherParams i u albums).map Params.count = some none ∧
    (onUserModeChange "album").userCountDisabled = true ∧
    (gatherParams i2 u albums).map Params.count
      = some (some (jsOrInt i2.userCount 500)) := by
  have hg : gatherParams i u albums = some
      { size_key := i.photoSize, embed_metadata := i.embedMetadata,
        filename_template := jsOr i.filenameTmpl "{title}_{id}",
        tab_type := some "album", date := none, count := none,
        user_id := none, text := none, tags := none, tag_mode := none,
        sort := none, license_ids := none, user_nsid := u,
        album_id := some a.id, album_title := some a.title } := by
    simp only [gatherParams, getActiveTab, htab, hu, hmode, hsel]
    simp only [Bool.true_eq_false, if_false, reduceIte]
    rw [if_neg hrange, hget]
    simp
  have hg2 : gatherParams i2 u albums = some
      { size_key := i2.photoSize, embed_metadata := i2.embedMetadata,
        filename_template := jsOr i2.filenameTmpl "{title}_{id}",
        tab_type := some "user_photostream", date := none,
        count := some (jsOrInt i2.userCount 500), user_id := none,
        text := none, tags := none, tag_mode := none, sort := none,
        license_ids := none, user_nsid := u, album_id := none,
        album_title := none } := by
    simp only [gatherParams, getActiveTab, htab2, hu, hmode2]
    simp
  refine ⟨?_, ?_, ?_, ?_, ?_, rfl, ?_⟩ <;> simp [hg, hg2]

theorem album_mode_request_shape_witness :
    (gatherParams sampleInputs (some "U1") [sampleAlbum]).map
      Params.tab_type = some (some "album") ∧
    (gatherParams sampleInputs (some "U1") [sampleAlbum]).map
      Params.album_id = some (some sampleAlbum.id) ∧
    (gatherParams sampleInputs (some "U1") [sampleAlbum]).map
      Params.album_title = some (some sampleAlbum.title) ∧
    (gatherParams sampleInputs (some "U1") [sampleAlbum]).map
      Params.user_nsid = some (some "U1") ∧
    (gatherParams sampleInputs (some "U1") [sampleAlbum]).map
      Params.count = some none ∧
    (onUserModeChange "album").userCountDisabled = true ∧
    (gatherParams { sampleInputs with userMode := "photostream" }
      (some "U1") [sampleAlbum]).map Params.count =
      some (some (jsOrInt
        { sampleInputs with userMode := "photostream" }.userCount 500)) :=
  album_mode_request_shape sampleInputs
    { sampleInputs with userMode := "photostream" } (some "U1")
    [sampleAlbum] 0 sampleAlbum rfl rfl rfl rfl (by decide) rfl rfl rfl

/-- C7: a search-preview response that succeeds with zero preview items
sets the status line to No photos found. and returns normally with an
empty grid and no new alert: a zero-result search is an empty result,
not an error. -/
theorem zero_result_preview (st : PreviewState) (text tags : String)
    (d : SearchData)
    (hne : ¬(text = "" ∧ tags = ""))
    (herr : jsTruthyOptStr d.error = false)
    (hempty : d.preview = []) :
    startPreview st text tags (Except.ok d) =
      { st with
        statusText := "No photos found.", grid := [],
        btnDisabled := false } := by
  rw [startPreview, if_neg hne]
  simp [herr, hempty]

def samplePreview : PreviewState :=
  { statusText := "", grid := [], alerts := [], btnDisabled := false }

def emptySearch : SearchData :=
  { error := none, preview := [], total := 0 }

theorem zero_result_preview_witness :
    startPreview samplePreview "sunset" "" (Except.ok emptySearch) =
      { samplePreview with
        statusText := "No photos found.", grid := [],
        btnDisabled := false } :=
  zero_result_preview samplePreview "sunset" "" emptySearch (by decide)
    rfl rfl

/-- C8: cancelDownload without a known job id is a silent no-op: no
request is issued and the state is returned unchanged. -/
theorem cancel_without_job_noop (s : ClientState) (e : Option String)
    (h : s.currentJobId = none) :
    cancelDownload s e = (s, []) := by
  simp [cancelDownload, h]

theorem cancel_without_job_noop_witness :
    cancelDownload sampleState none = (sampleState, []) :=
  cancel_without_job_noop sampleState none rfl

/-- C9: after setRunning b the download button is disabled exactly when b
and the cancel button exactly when not b, so exactly one of the two is
enabled; and every terminal branch of the onmessage handler, as well as
the onerror handler, re-enables the download button. -/
theorem running_buttons_invariant (s : ClientState) (b : Bool)
    (ev : Event) (hterm : isTerminalEvent ev) :
    (setRunning s b).downloadBtnDisabled = b ∧
    (setRunning s b).cancelBtnDisabled = !b ∧
    (setRunning s b).downloadBtnDisabled ≠
      (setRunning s b).cancelBtnDisabled ∧
    (onmessage s ev).downloadBtnDisabled = false ∧
    (onerror s).downloadBtnDisabled = false := by
  refine ⟨rfl, rfl, ?_, (onmessage_terminal_effects s ev hterm).2, rfl⟩
  cases b <;> simp [setRunning]

theorem running_buttons_invariant_witness :
    (setRunning sampleState true).downloadBtnDisabled = true ∧
    (setRunning sampleState true).cancelBtnDisabled = !true ∧
    (setRunning sampleState true).downloadBtnDisabled ≠
      (setRunning sampleState true).cancelBtnDisabled ∧
    (onmessage sampleState evComplete).downloadBtnDisabled = false ∧
    (onerror sampleState).downloadBtnDisabled = false :=
  running_buttons_invariant sampleState true evComplete (Or.inl rfl)

/-- Every request gatherParams builds carries the filename template with
the JavaScript falsy-default applied. -/
theorem gatherParams_template (i : FormInputs) (u : Option String)
    (albums : List Album) (p : Params)
    (h : gatherParams i u albums = some p) :
    p.filename_template = jsOr i.filenameTmpl "{title}_{id}" := by
  simp only [gatherParams] at h
  by_cases h1 : getActiveTab i.activeTab = "interestingness"
  · rw [if_pos h1] at h
    cases Option.some.inj h
    rfl
  rw [if_neg h1] at h
  by_cases h2 : getActiveTab i.activeTab = "search"
  · rw [if_pos h2] at h
    cases Option.some.inj h
    rfl
  rw [if_neg h2] at h
  by_cases h3 : getActiveTab i.activeTab = "user-album"
  · rw [if_pos h3] at h
    by_cases hu : jsTruthyOptStr u = false
    · rw [if_pos hu] at h
      exact absurd h (by simp)
    rw [if_neg hu] at h
    by_cases hm : i.userMode = "photostream"
    · rw [if_pos hm] at h
      cases Option.some.inj h
      rfl
    rw [if_neg hm] at h
    rcases hsel : i.albumSelect with _ | idx <;> simp only [hsel] at h
    · exact absurd h (by simp)
    by_cases hr : (idx < 0 ∨ (albums.length : Int) ≤ idx)
    · rw [if_pos hr] at h
      exact absurd h (by simp)
    rw [if_neg hr] at h
    rcases hget : albums.get? idx.toNat with _ | a <;> simp only [hget] at h
    · exact absurd h (by simp)
    · cases Option.some.inj h
      rfl
  · rw [if_neg h3] at h
    cases Option.some.inj h
    rfl

/-- C10: a count field whose parseInt is NaN or 0, including an explicit
0 entry, is promoted to the default: 500 on the interestingness and
photostream tabs and 100 on the search tab; and a blank filename
template is replaced by the default placeholder template in every
request gatherParams builds. -/
theorem default_counts_and_template (i : FormInputs) (u : Option String)
    (albums : List Album)
    (hint : i.intCount = none ∨ i.intCount = some 0)
    (hsearch : i.searchCount = none ∨ i.searchCount = some 0)
    (huser : i.userCount = none ∨ i.userCount = some 0)
    (hu : jsTruthyOptStr u = true)
    (htmpl : i.filenameTmpl = "") :
    (gatherParams { i with activeTab := some "interestingness" } u
      albums).map Params.count = some (some 500) ∧
    (gatherParams { i with activeTab := some "search" } u albums).map
      Params.count = some (some 100) ∧
    (gatherParams { i with
        activeTab := some "user-album",
        userMode := "photostream" } u albums).map Params.count
      = some (some 500) ∧
    (gatherParams i u albums).all
      (fun p => p.filename_template == "{title}_{id}") = true := by
  refine ⟨?_, ?_, ?_, ?_⟩
  · rcases hint with h | h <;>
      simp [gatherParams, getActiveTab, jsOrInt, h]
  · rcases hsearch with h | h <;>
      simp [gatherParams, getActiveTab, jsOrInt, h]
  · rcases huser with h | h <;>
      simp [gatherParams, getActiveTab, jsOrInt, h, hu]
  · rcases hg : gatherParams i u albums with _ | p
    · rfl
    · have := gatherParams_template i u albums p hg
      rw [htmpl] at this
      simp [Option.all, hg, this, jsOr]

theorem default_counts_and_template_witness :
    (gatherParams { sampleInputs with
      activeTab := some "interestingness" } (some "U1") [sampleAlbum]).map
      Params.count = some (some 500) ∧
    (gatherParams { sampleInputs with activeTab := some "search" }
      (some "U1") [sampleAlbum]).map Params.count = some (some 100) ∧
    (gatherParams { sampleInputs with
        activeTab := some "user-album",
        userMode := "photostream" } (some "U1") [sampleAlbum]).map
      Params.count = some (some 500) ∧
    (gatherParams sampleInputs (some "U1") [sampleAlbum]).all
      (fun p => p.filename_template == "{title}_{id}") = true :=
  default_counts_and_template sampleInputs (some "U1") [sampleAlbum]
    (Or.inl rfl) (Or.inr rfl) (Or.inl rfl) rfl rfl

end FlickrClient
